import Mathlib

/-!
Shallow embedding of the WebSocket relay of XeryonRemoteDemoStation
(src/server/routes.ts, with the variant in src/unnamed/part_001), and
verification of the spec's claims about it.

The relay keeps a Map from RPi identifier to its WebSocket
(`rpiConnections`), a set of UI viewer sockets (`wssUI.clients`), and a
Map of registered UI clients (`uiConnections`).  Connections are modelled
by explicit handles plus a `readyState` field; a send that throws is
modelled by a per-viewer `failsSend` flag.  JS `Map.set`/`get`/`delete`
become association-list operations with Map semantics, JS string
truthiness becomes an explicit `truthy`/`orDefault`, and `atob` success
becomes the executable `validBase64` (WHATWG forgiving-base64).
-/

namespace XeryonRelay

/-- WebSocket.OPEN readyState constant (the code only ever compares
readyState against this value). -/
def WS_OPEN : Nat := 1

/-- A device-side WebSocket as stored in `rpiConnections`: an identity
(handle) and its readyState. -/
structure DConn where
  handle : Nat
  readyState : Nat
deriving Repr, DecidableEq

/-- The JSON envelopes exchanged over the relay, as one record with a
`type` tag and the optional fields the code actually writes or reads. -/
structure Envelope where
  type : String
  rpiId : Option String := none
  frame : Option String := none
  message : Option String := none
  status : Option String := none
  command : Option String := none
  direction : Option String := none
  timestamp : Option String := none
  rpiIds : Option (List String) := none
  detailsConnected : Option Bool := none
  detailsReadyState : Option Nat := none
deriving Repr, DecidableEq

/-- A UI viewer client in `wssUI.clients`: its readyState, whether a
`client.send` to it throws, and the envelopes delivered to it so far. -/
structure Viewer where
  readyState : Nat
  failsSend : Bool
  inbox : List Envelope
deriving Repr, DecidableEq

/-! JS `Map` operations on association lists (insertion order kept,
`set` overwrites in place, `delete` removes the entry for the key). -/

/-- JS `Map.prototype.set`: overwrite the entry in place if the key is
present, else append. -/
def mapSet {α : Type} : List (String × α) → String → α → List (String × α)
  | [], k, v => [(k, v)]
  | (k', v') :: rest, k, v =>
    if k' = k then (k, v) :: rest else (k', v') :: mapSet rest k v

/-- JS `Map.prototype.get`: first entry with the key, if any. -/
def mapGet {α : Type} : List (String × α) → String → Option α
  | [], _ => none
  | (k', v) :: rest, k => if k' = k then some v else mapGet rest k

/-- JS `Map.prototype.delete`: remove the entry for the key. -/
def mapDelete {α : Type} (m : List (String × α)) (k : String) : List (String × α) :=
  m.filter (fun p => p.1 ≠ k)

/-! Base64 validation: `atob(s)` succeeds exactly on forgiving-base64
input (strip ASCII whitespace, drop up to two trailing `=` when the
length is a multiple of four, length mod 4 not 1, all characters in the
base64 alphabet). -/

/-- ASCII whitespace stripped by forgiving-base64. -/
def isB64Ws (c : Char) : Bool :=
  c == ' ' || c == '\t' || c == '\n' || c == '\x0C' || c == '\r'

/-- Characters of the base64 alphabet. -/
def isBase64Char (c : Char) : Bool :=
  c.isAlphanum || c == '+' || c == '/'

/-- Drop up to two trailing padding characters when the length is a
multiple of four. -/
def dropPadding (l : List Char) : List Char :=
  if l.length % 4 = 0 then
    match l.reverse with
    | '=' :: '=' :: rest => rest.reverse
    | '=' :: rest => rest.reverse
    | _ => l
  else l

/-- Whether `atob` accepts the string (forgiving-base64 validity). -/
def validBase64 (s : String) : Bool :=
  let cs := s.toList.filter (fun c => !(isB64Ws c))
  let cs := dropPadding cs
  cs.length % 4 != 1 && cs.all isBase64Char

/-! JS string primitives, as kernel-computable list traversals. -/

/-- JS `String.prototype.startsWith`. -/
def jsStartsWith (s pre : String) : Bool :=
  pre.toList.isPrefixOf s.toList

/-- Auxiliary accumulator traversal for `jsSplit`. -/
def splitCharAux (sep : Char) : List Char → List Char → List String
  | [], acc => [String.mk acc.reverse]
  | c :: rest, acc =>
    if c = sep then String.mk acc.reverse :: splitCharAux sep rest []
    else splitCharAux sep rest (c :: acc)

/-- JS `String.prototype.split` with a one-character separator:
every separator occurrence cuts, empty pieces kept. -/
def jsSplit (s : String) (sep : Char) : List String :=
  splitCharAux sep s.toList []

/-! JS string truthiness. -/

/-- JS truthiness of a possibly-absent string: `undefined` and `""` are
falsy. -/
def truthy : Option String → Bool
  | none => false
  | some s => !(s == "")

/-- JS `x || d` on a possibly-absent string. -/
def orDefault (o : Option String) (d : String) : String :=
  match o with
  | none => d
  | some s => if s == "" then d else s

/-! Broadcast fan-out over `wssUI.clients`, in iteration order. -/

/-- Deliver one envelope to a viewer (a successful `client.send`). -/
def deliver (e : Envelope) (v : Viewer) : Viewer :=
  { v with inbox := v.inbox ++ [e] }

/-- Fan-out with a per-recipient try/catch, as in the camera-frame
branch of routes.ts (lines 160-169): skip viewers whose readyState is
not OPEN, swallow a throwing send and continue with the rest. -/
def broadcastCaught (e : Envelope) : List Viewer → List Viewer
  | [] => []
  | v :: vs =>
    if v.readyState = WS_OPEN then
      (if v.failsSend then v else deliver e v) :: broadcastCaught e vs
    else
      v :: broadcastCaught e vs

/-- Plain `forEach` fan-out with no per-recipient catch, as in the
rpi_connected / rpi_disconnected / rpi_response branches: skip viewers
whose readyState is not OPEN; a throwing send aborts the iteration,
leaving the failing viewer and all later viewers without the envelope.
Returns the viewers plus whether a send threw. -/
def broadcastPlain (e : Envelope) : List Viewer → List Viewer × Bool
  | [] => ([], false)
  | v :: vs =>
    if v.readyState = WS_OPEN then
      if v.failsSend then (v :: vs, true)
      else
        let r := broadcastPlain e vs
        (deliver e v :: r.1, r.2)
    else
      let r := broadcastPlain e vs
      (v :: r.1, r.2)

/-! Standard envelopes built by the relay. -/

/-- Envelope broadcast on RPi connect (routes.ts lines 112-119). -/
def rpiConnectedEnv (rpiId : String) : Envelope :=
  { type := "rpi_connected", rpiId := some rpiId }

/-- Envelope broadcast on RPi disconnect (routes.ts lines 195-202). -/
def rpiDisconnectedEnv (rpiId : String) : Envelope :=
  { type := "rpi_disconnected", rpiId := some rpiId }

/-- Envelope broadcast for a camera frame (routes.ts lines 152-156). -/
def cameraEnvelope (rpiId frame : String) : Envelope :=
  { type := "camera_frame", rpiId := some rpiId, frame := some frame }

/-- Envelope broadcast for a generic device response
(routes.ts lines 176-181). -/
def rpiResponseEnv (rpiId : String) (status message : Option String) : Envelope :=
  { type := "rpi_response", rpiId := some rpiId, status := status, message := message }

/-! Server-side relay state and the device-side handlers. -/

/-- The relay's device-facing shared state: the `rpiConnections` Map and
the current `wssUI.clients`. -/
structure RelayState where
  registry : List (String × DConn)
  viewers : List Viewer
deriving Repr, DecidableEq

/-- RPi connection handler (routes.ts lines 104-119): store the
connection in `rpiConnections` under its id, then notify every open UI
client with an rpi_connected envelope (plain forEach, no per-recipient
catch). -/
def onRpiConnect (st : RelayState) (rpiId : String) (conn : DConn) : RelayState :=
  { registry := mapSet st.registry rpiId conn,
    viewers := (broadcastPlain (rpiConnectedEnv rpiId) st.viewers).1 }

/-- RPi close handler (routes.ts lines 190-203): delete the registry
entry for the id captured at connect time — unconditionally, with no
check that the stored socket is the closing one — then broadcast
rpi_disconnected to every open UI client. -/
def onRpiClose (st : RelayState) (rpiId : String) : RelayState :=
  { registry := mapDelete st.registry rpiId,
    viewers := (broadcastPlain (rpiDisconnectedEnv rpiId) st.viewers).1 }

/-- A parsed frame received from a device socket. -/
structure DeviceFrame where
  type : String
  frame : Option String := none
  status : Option String := none
  message : Option String := none
deriving Repr, DecidableEq

/-- Result of the RPi message handler: the updated viewers, and whether
the handler closed the device connection (it never does: every failure
path is return/log, and the whole handler body sits in a try/catch). -/
structure RpiMsgResult where
  viewers : List Viewer
  deviceClosed : Bool
deriving Repr, DecidableEq

/-- RPi message handler (routes.ts lines 121-188).  camera_frame branch:
drop when `frame` is falsy; relay as-is when it starts with "data:";
otherwise require `atob` to accept it and prepend the JPEG data-URI
prefix; fan out with a per-recipient catch.  Any other type: broadcast
an rpi_response envelope with a plain forEach (no per-recipient catch;
a throwing send is caught only by the outer try/catch, so it aborts the
fan-out but leaves the device connection open). -/
def handleRpiMessage (rpiId : String) (msg : DeviceFrame) (viewers : List Viewer) :
    RpiMsgResult :=
  if msg.type = "camera_frame" then
    if truthy msg.frame then
      let f := msg.frame.getD ""
      if jsStartsWith f "data:" then
        ⟨broadcastCaught (cameraEnvelope rpiId f) viewers, false⟩
      else if validBase64 f then
        ⟨broadcastCaught (cameraEnvelope rpiId ("data:image/jpeg;base64," ++ f)) viewers,
          false⟩
      else
        ⟨viewers, false⟩
    else
      ⟨viewers, false⟩
  else
    ⟨(broadcastPlain (rpiResponseEnv rpiId msg.status msg.message) viewers).1, false⟩

/-! Viewer-side (UI) handlers. -/

/-- A parsed frame received from a UI viewer socket. -/
structure ViewerFrame where
  type : String
  stationId : Option String := none
  rpiId : Option String := none
  command : Option String := none
  direction : Option String := none
deriving Repr, DecidableEq

/-- UI-facing state: the device registry (read only here) and the
`uiConnections` Map of registered viewers. -/
structure UIState where
  registry : List (String × DConn)
  uiConns : List (String × Nat)
deriving Repr, DecidableEq

/-- Result of the UI message handler: the updated state, the envelopes
sent back to the originating viewer, and the (device handle, envelope)
routed sends. -/
structure UIMsgResult where
  state : UIState
  toViewer : List Envelope
  toDevice : List (Nat × Envelope)
deriving Repr, DecidableEq

/-- The command envelope forwarded to the device (routes.ts lines
262-268): `command` and `direction` take JS `||` defaults, `timestamp`
is the generation time. -/
def commandEnvelope (msg : ViewerFrame) (now : String) : Envelope :=
  { type := "command",
    command := some (orDefault msg.command "unknown"),
    direction := some (orDefault msg.direction "none"),
    timestamp := some now }

/-- The confirmation echoed to the viewer (routes.ts lines 274-278):
the object literal spells type "command_sent" and a message, then
spreads commandMessage; JS spread is later-keys-win, so the spread's
type "command" overwrites the "command_sent" literal, and the
command/direction/timestamp fields are taken from commandMessage. -/
def confirmationEnvelope (rid : String) (cm : Envelope) : Envelope :=
  { cm with message := some ("Command sent to RPi " ++ rid) }

/-- UI message handler (routes.ts lines 212-286) for one parsed frame
from the viewer identified by `selfHandle`, at generation time `now`.
Branches, in source order: register frames store a keyed entry in
`uiConnections` and confirm only when both stationId and rpiId are
truthy, else do nothing; frames with a falsy rpiId get one error reply;
a target that is absent or not OPEN gets one error reply naming it;
otherwise one command envelope goes to that device and one confirmation
back to the viewer. -/
def handleUIMessage (st : UIState) (selfHandle : Nat) (msg : ViewerFrame)
    (now : String) : UIMsgResult :=
  if msg.type = "register" then
    if truthy msg.stationId && truthy msg.rpiId then
      let sid := msg.stationId.getD ""
      let rid := msg.rpiId.getD ""
      { state := { st with uiConns := mapSet st.uiConns ("ui_" ++ sid ++ "_" ++ rid) selfHandle },
        toViewer := [{ type := "registered",
                       message := some ("Successfully registered for station " ++ sid) }],
        toDevice := [] }
    else
      { state := st, toViewer := [], toDevice := [] }
  else if !(truthy msg.rpiId) then
    { state := st,
      toViewer := [{ type := "error", message := some "RPi ID is required" }],
      toDevice := [] }
  else
    let rid := msg.rpiId.getD ""
    match mapGet st.registry rid with
    | none =>
      { state := st,
        toViewer := [{ type := "error",
                       message := some ("RPi " ++ rid ++ " not connected"),
                       detailsConnected := some false }],
        toDevice := [] }
    | some dc =>
      if dc.readyState ≠ WS_OPEN then
        { state := st,
          toViewer := [{ type := "error",
                         message := some ("RPi " ++ rid ++ " not connected"),
                         detailsConnected := some true,
                         detailsReadyState := some dc.readyState }],
          toDevice := [] }
      else
        let cm := commandEnvelope msg now
        { state := st,
          toViewer := [confirmationEnvelope rid cm],
          toDevice := [(dc.handle, cm)] }

/-! Viewer connection handlers (what is sent to a viewer the moment it
connects). -/

/-- UI connection handler of routes.ts (lines 207-211): it only attaches
listeners; nothing is sent to the viewer on connect. -/
def uiConnectSnapshotRoutes (_registry : List (String × DConn)) : List Envelope :=
  []

/-- UI connection handler of the src/unnamed/part_001 variant (lines
214-218): send one rpi_list envelope whose rpiIds are the current keys
of `rpiConnections`. -/
def uiConnectSnapshotVariant (registry : List (String × DConn)) : List Envelope :=
  [{ type := "rpi_list", rpiIds := some (registry.map Prod.fst) }]

/-! Upgrade router (routes.ts lines 57-101). -/

/-- Outcome of an upgrade request: a completed device handshake keyed by
the extracted id, a completed viewer handshake, or a rejection that
writes the given HTTP status and destroys the socket before any
WebSocket connection object exists. -/
inductive UpgradeResult where
  | device (rpiId : String)
  | viewer
  | reject (status : Nat)
deriving Repr, DecidableEq

/-- The upgrade handler's path routing: paths starting with "/rpi/"
extract segment 2 as the id (400 when it is empty), "/appws" is the
viewer endpoint, anything else is 404. -/
def routeUpgrade (pathname : String) : UpgradeResult :=
  if jsStartsWith pathname "/rpi/" then
    let rpiId := (jsSplit pathname '/').getD 2 ""
    if rpiId = "" then .reject 400 else .device rpiId
  else if pathname = "/appws" then .viewer
  else .reject 404

/-! Spec-level notions used to state the claims. -/

/-- The registry keeps at most one entry per identifier: its keys are
pairwise distinct. -/
abbrev NodupKeys {α : Type} (m : List (String × α)) : Prop :=
  (m.map Prod.fst).Nodup

/-- Number of registry entries stored under a given identifier. -/
def countKey {α : Type} (m : List (String × α)) (k : String) : Nat :=
  (m.map Prod.fst).count k

/-- What a fault-free broadcast does to one viewer: open viewers receive
the envelope, the others are untouched. -/
def deliverOpen (e : Envelope) (v : Viewer) : Viewer :=
  if v.readyState = WS_OPEN then deliver e v else v

/-- What the per-recipient-caught broadcast does to one viewer: open
viewers whose send does not throw receive the envelope, the others are
untouched. -/
def deliverOpenOk (e : Envelope) (v : Viewer) : Viewer :=
  if v.readyState = WS_OPEN ∧ v.failsSend = false then deliver e v else v

/-! Helper lemmas about the Map operations and the two fan-outs. -/

/-- The per-recipient-caught fan-out delivers to exactly the open
viewers whose send does not throw, leaving every other viewer
untouched. -/
theorem broadcastCaught_eq_map (e : Envelope) (vs : List Viewer) :
    broadcastCaught e vs = vs.map (deliverOpenOk e) := by
  induction vs with
  | nil => rfl
  | cons v vs ih =>
    simp only [broadcastCaught, List.map_cons, ih, deliverOpenOk]
    by_cases h : v.readyState = WS_OPEN
    · by_cases hf : v.failsSend <;> simp [h, hf]
    · simp [h]

/-- When no open viewer's send throws, the plain forEach fan-out
delivers to every open viewer, leaves the rest untouched, and no
exception escapes. -/
theorem broadcastPlain_no_fail (e : Envelope) (vs : List Viewer)
    (h : ∀ v ∈ vs, v.readyState = WS_OPEN → v.failsSend = false) :
    broadcastPlain e vs = (vs.map (deliverOpen e), false) := by
  induction vs with
  | nil => rfl
  | cons v vs ih =>
    have hv := h v (by simp)
    have hrest : ∀ w ∈ vs, w.readyState = WS_OPEN → w.failsSend = false :=
      fun w hw => h w (by simp [hw])
    by_cases hop : v.readyState = WS_OPEN
    · simp [broadcastPlain, hop, hv hop, ih hrest, deliverOpen]
    · simp [broadcastPlain, hop, ih hrest, deliverOpen]

/-- Both broadcast shapes keep each viewer's readyState and failsSend. -/
theorem deliverOpen_preserves (e : Envelope) (v : Viewer) :
    (deliverOpen e v).readyState = v.readyState ∧
    (deliverOpen e v).failsSend = v.failsSend := by
  unfold deliverOpen deliver
  split <;> simp

/-- A fault-free viewer set stays fault-free across a fan-out. -/
theorem no_fail_map_deliverOpen (e : Envelope) (vs : List Viewer)
    (h : ∀ v ∈ vs, v.readyState = WS_OPEN → v.failsSend = false) :
    ∀ v ∈ vs.map (deliverOpen e), v.readyState = WS_OPEN → v.failsSend = false := by
  intro v hv
  obtain ⟨w, hw, rfl⟩ := List.mem_map.mp hv
  have hp := deliverOpen_preserves e w
  rw [hp.1, hp.2]
  exact h w hw

/-- When viewers never throw, the caught fan-out and the fault-free
fan-out agree. -/
theorem map_deliverOpenOk_eq (e : Envelope) (vs : List Viewer)
    (h : ∀ v ∈ vs, v.failsSend = false) :
    vs.map (deliverOpenOk e) = vs.map (deliverOpen e) := by
  refine List.map_congr_left ?_
  intro v hv
  unfold deliverOpenOk deliverOpen
  by_cases hop : v.readyState = WS_OPEN
  · simp [hop, h v hv]
  · simp [hop]

/-- Looking up the key just set returns the value just set. -/
theorem mapGet_mapSet_self {α : Type} (m : List (String × α)) (k : String) (v : α) :
    mapGet (mapSet m k v) k = some v := by
  induction m with
  | nil => simp [mapSet, mapGet]
  | cons p rest ih =>
    obtain ⟨k', v'⟩ := p
    by_cases h : k' = k
    · simp [mapSet, h, mapGet]
    · simp [mapSet, h, mapGet, ih]

/-- Setting one key leaves lookups of other keys unchanged. -/
theorem mapGet_mapSet_ne {α : Type} (m : List (String × α)) (k k' : String) (v : α)
    (h : k' ≠ k) :
    mapGet (mapSet m k v) k' = mapGet m k' := by
  have h' : ¬ k = k' := fun hh => h hh.symm
  induction m with
  | nil => simp [mapSet, mapGet, h']
  | cons p rest ih =>
    obtain ⟨k'', v''⟩ := p
    by_cases hk : k'' = k
    · subst hk
      simp [mapSet, mapGet, h']
    · simp [mapSet, hk, mapGet, ih]

/-- Membership in the keys after a set. -/
theorem mem_keys_mapSet {α : Type} (m : List (String × α)) (k q : String) (v : α) :
    q ∈ (mapSet m k v).map Prod.fst ↔ q ∈ m.map Prod.fst ∨ q = k := by
  induction m with
  | nil => simp [mapSet]
  | cons p rest ih =>
    obtain ⟨k', v'⟩ := p
    by_cases hk : k' = k
    · subst hk
      simp only [mapSet, List.map_cons, List.mem_cons, if_pos]
      tauto
    · simp only [mapSet, if_neg hk, List.map_cons, List.mem_cons, ih]
      tauto

/-- `Map.set` keeps the keys pairwise distinct. -/
theorem nodupKeys_mapSet {α : Type} (m : List (String × α)) (k : String) (v : α)
    (h : NodupKeys m) : NodupKeys (mapSet m k v) := by
  induction m with
  | nil => simp [mapSet, NodupKeys]
  | cons p rest ih =>
    obtain ⟨k', v'⟩ := p
    simp only [NodupKeys, List.map_cons, List.nodup_cons] at h
    by_cases hk : k' = k
    · subst hk
      simpa [mapSet, NodupKeys, List.nodup_cons] using h
    · have hrest := ih h.2
      simp only [mapSet, if_neg hk, NodupKeys, List.map_cons, List.nodup_cons]
      refine ⟨?_, hrest⟩
      intro hmem
      rcases (mem_keys_mapSet rest k k' v).mp hmem with hin | heq
      · exact h.1 hin
      · exact hk heq

/-- `Map.delete` keeps the keys pairwise distinct. -/
theorem nodupKeys_mapDelete {α : Type} (m : List (String × α)) (k : String)
    (h : NodupKeys m) : NodupKeys (mapDelete m k) := by
  have hsub : List.Sublist ((mapDelete m k).map Prod.fst) (m.map Prod.fst) :=
    List.Sublist.map Prod.fst (List.filter_sublist m)
  exact List.Nodup.sublist hsub h

/-- After deleting a key its lookup is empty. -/
theorem mapGet_mapDelete_self {α : Type} (m : List (String × α)) (k : String) :
    mapGet (mapDelete m k) k = none := by
  induction m with
  | nil => rfl
  | cons p rest ih =>
    obtain ⟨k', v'⟩ := p
    by_cases h : k' = k
    · simpa [mapDelete, List.filter_cons, h] using ih
    · simpa [mapDelete, List.filter_cons, h, mapGet] using ih

/-- Deleting one key leaves lookups of other keys unchanged. -/
theorem mapGet_mapDelete_ne {α : Type} (m : List (String × α)) (k k' : String)
    (h : k' ≠ k) :
    mapGet (mapDelete m k) k' = mapGet m k' := by
  induction m with
  | nil => rfl
  | cons p rest ih =>
    obtain ⟨k'', v''⟩ := p
    by_cases hk : k'' = k
    · subst hk
      have : ¬ k'' = k' := fun hh => h hh.symm
      simpa [mapDelete, List.filter_cons, mapGet, this] using ih
    · by_cases hq : k'' = k'
      · subst hq
        simp [mapDelete, List.filter_cons, hk, mapGet]
      · simpa [mapDelete, List.filter_cons, hk, mapGet, hq] using ih

/-! Claim C1. -/

/-- C1 counterexample: register "d" with connection handle 1, then
supersede it with handle 2; when the old connection's close handler now
runs, the registry entry for "d" — which holds the superseding handle 2
— is deleted, so the lookup afterwards is `none` instead of the
superseding connection the claim requires to survive. -/
theorem c1_close_supersede_counterexample :
    mapGet (onRpiClose
        (onRpiConnect (onRpiConnect { registry := [], viewers := [] } "d"
            { handle := 1, readyState := 1 }) "d"
            { handle := 2, readyState := 1 }) "d").registry "d" = none := by
  decide

/-- C1 (amended): the RPi close handler for identifier `id` removes the
registry entry for `id` unconditionally — even when the entry was
superseded by a later registration, closing the old connection removes
the newer connection's entry — entries of other identifiers are
untouched, and in either case an rpi_disconnected envelope carrying
`id` is sent to every open viewer (none of whose sends throw), the
other viewers being left unchanged. -/
theorem c1_close_handler_unconditional (st : RelayState) (id id' : String)
    (hne : id' ≠ id)
    (hnf : ∀ v ∈ st.viewers, v.readyState = WS_OPEN → v.failsSend = false) :
    mapGet (onRpiClose st id).registry id = none ∧
    mapGet (onRpiClose st id).registry id' = mapGet st.registry id' ∧
    (onRpiClose st id).viewers
      = st.viewers.map (deliverOpen (rpiDisconnectedEnv id)) := by
  refine ⟨mapGet_mapDelete_self _ _, mapGet_mapDelete_ne _ _ _ hne, ?_⟩
  simp [onRpiClose, broadcastPlain_no_fail (rpiDisconnectedEnv id) st.viewers hnf]

/-- C1 witness: the amended close-handler property evaluated at a
two-device registry with one open viewer. -/
theorem c1_close_handler_unconditional_witness :
    mapGet (onRpiClose { registry := [("d", { handle := 2, readyState := 1 }),
                                      ("e", { handle := 3, readyState := 1 })],
                         viewers := [{ readyState := 1, failsSend := false, inbox := [] }] }
            "d").registry "d" = none ∧
    mapGet (onRpiClose { registry := [("d", { handle := 2, readyState := 1 }),
                                      ("e", { handle := 3, readyState := 1 })],
                         viewers := [{ readyState := 1, failsSend := false, inbox := [] }] }
            "d").registry "e"
      = mapGet [("d", ({ handle := 2, readyState := 1 } : DConn)),
                ("e", { handle := 3, readyState := 1 })] "e" ∧
    (onRpiClose { registry := [("d", { handle := 2, readyState := 1 }),
                               ("e", { handle := 3, readyState := 1 })],
                  viewers := [{ readyState := 1, failsSend := false, inbox := [] }] }
        "d").viewers
      = [({ readyState := 1, failsSend := false, inbox := [] } : Viewer)].map
          (deliverOpen (rpiDisconnectedEnv "d")) :=
  c1_close_handler_unconditional
    { registry := [("d", { handle := 2, readyState := 1 }),
                   ("e", { handle := 3, readyState := 1 })],
      viewers := [{ readyState := 1, failsSend := false, inbox := [] }] }
    "d" "e" (by decide) (by decide)

/-! Claim C2. -/

/-- C2: evaluating the UI message handler at the failing input — a
viewer command frame of type "move" with command "step", direction
"up", targeting registered OPEN device "rpi1" with handle 7 — exactly
one command envelope reaches that device and exactly one confirmation
returns to the originating viewer with the same command, direction and
timestamp, but the confirmation's type tag is "command", not the
"command_sent" the claim (and the code's own object literal) intends:
the JS spread of commandMessage overwrites the literal's type field. -/
theorem c2_confirmation_type_overwritten :
    handleUIMessage
        { registry := [("rpi1", { handle := 7, readyState := 1 })], uiConns := [] }
        3
        { type := "move", rpiId := some "rpi1", command := some "step",
          direction := some "up" }
        "2024-01-01T00:00:00.000Z"
      = { state := { registry := [("rpi1", { handle := 7, readyState := 1 })],
                     uiConns := [] },
          toViewer := [{ type := "command",
                         message := some "Command sent to RPi rpi1",
                         command := some "step", direction := some "up",
                         timestamp := some "2024-01-01T00:00:00.000Z" }],
          toDevice := [(7, { type := "command", command := some "step",
                             direction := some "up",
                             timestamp := some "2024-01-01T00:00:00.000Z" })] }
      ∧ ("command" : String) ≠ "command_sent" :=
  ⟨by decide, by decide⟩

/-! Claim C3. -/

/-- C3 counterexample: a camera_frame whose frame field is present but
equal to "" defeats the claim — "" is accepted by atob (valid base64)
and does not start with "data:", so the claim requires a broadcast of
the bare prefix "data:image/jpeg;base64," to the open viewer, but the
handler's JS-truthiness guard `!response.frame` treats "" like an
absent field and drops the frame: the sole open viewer receives
nothing. -/
theorem c3_empty_frame_counterexample :
    validBase64 "" = true ∧
    jsStartsWith "" "data:" = false ∧
    handleRpiMessage "rpi1" { type := "camera_frame", frame := some "" }
        [{ readyState := 1, failsSend := false, inbox := [] }]
      = ⟨[{ readyState := 1, failsSend := false, inbox := [] }], false⟩ :=
  ⟨by decide, by decide, by decide⟩

/-- C3 (amended): a device camera_frame with a JS-falsy frame field
(absent, or the empty string — which is valid base64 but is dropped by
the truthiness guard like an absent field) is dropped with no envelope
sent to any viewer and without closing the device connection, and
likewise a non-empty bare frame that is not valid base64; a non-empty
frame starting with "data:" is broadcast verbatim inside a camera_frame
envelope carrying the device id to every open viewer, and a non-empty
bare valid-base64 frame is broadcast with "data:image/jpeg;base64,"
prepended. -/
theorem c3_camera_frame_relay (rpiId : String) (msg : DeviceFrame)
    (viewers : List Viewer) (f : String)
    (hty : msg.type = "camera_frame")
    (hnf : ∀ v ∈ viewers, v.failsSend = false) :
    (truthy msg.frame = false →
       handleRpiMessage rpiId msg viewers = ⟨viewers, false⟩) ∧
    (msg.frame = some f → f ≠ "" → jsStartsWith f "data:" = false →
       validBase64 f = false →
       handleRpiMessage rpiId msg viewers = ⟨viewers, false⟩) ∧
    (msg.frame = some f → f ≠ "" → jsStartsWith f "data:" = true →
       handleRpiMessage rpiId msg viewers
         = ⟨viewers.map (deliverOpen (cameraEnvelope rpiId f)), false⟩) ∧
    (msg.frame = some f → f ≠ "" → jsStartsWith f "data:" = false →
       validBase64 f = true →
       handleRpiMessage rpiId msg viewers
         = ⟨viewers.map (deliverOpen
             (cameraEnvelope rpiId ("data:image/jpeg;base64," ++ f))), false⟩) := by
  refine ⟨?_, ?_, ?_, ?_⟩
  · intro hfalse
    unfold handleRpiMessage
    simp [hty, hfalse]
  · intro hf hne hndata hnb64
    unfold handleRpiMessage
    simp [hty, hf, truthy, hne, hndata, hnb64]
  · intro hf hne hdata
    have hcb : broadcastCaught (cameraEnvelope rpiId f) viewers
        = viewers.map (deliverOpen (cameraEnvelope rpiId f)) := by
      rw [broadcastCaught_eq_map, map_deliverOpenOk_eq _ _ hnf]
    unfold handleRpiMessage
    simp [hty, hf, truthy, hne, hdata, hcb]
  · intro hf hne hndata hb64
    have hcb : broadcastCaught (cameraEnvelope rpiId ("data:image/jpeg;base64," ++ f)) viewers
        = viewers.map (deliverOpen (cameraEnvelope rpiId ("data:image/jpeg;base64," ++ f))) := by
      rw [broadcastCaught_eq_map, map_deliverOpenOk_eq _ _ hnf]
    unfold handleRpiMessage
    simp [hty, hf, truthy, hne, hndata, hb64, hcb]

/-- C3 witness: a bare base64 frame "QUJD" from "rpi1" reaches the one
open viewer normalized to a JPEG data URI. -/
theorem c3_camera_frame_relay_witness :
    handleRpiMessage "rpi1" { type := "camera_frame", frame := some "QUJD" }
        [{ readyState := 1, failsSend := false, inbox := [] }]
      = ⟨[{ readyState := 1, failsSend := false,
            inbox := [cameraEnvelope "rpi1" "data:image/jpeg;base64,QUJD"] }], false⟩ := by
  have h := (c3_camera_frame_relay "rpi1"
      { type := "camera_frame", frame := some "QUJD" }
      [{ readyState := 1, failsSend := false, inbox := [] }] "QUJD" rfl
      (by decide)).2.2.2 rfl (by decide) (by decide) (by decide)
  rw [h]
  decide

/-! Claim C4. -/

/-- C4 counterexample: a generic device response relayed to two open
viewers of which the first's send throws — the rpi_response forEach has
no per-recipient catch, so the throw aborts the fan-out and the second
open viewer receives nothing, where the claim requires it to receive
the envelope. -/
theorem c4_response_fanout_aborts :
    ((handleRpiMessage "d" { type := "status", status := some "ok", message := some "hi" }
        [{ readyState := 1, failsSend := true, inbox := [] },
         { readyState := 1, failsSend := false, inbox := [] }]).viewers.map Viewer.inbox)
      = [[], []] := by
  decide

/-- C4 (amended): the camera-frame fan-out is per-recipient protected —
for an arbitrary viewer set, every open viewer whose send does not
throw receives the envelope exactly once, failing or closed viewers are
simply left unchanged, and the device connection is not closed; the
rpi_response fan-out tolerates viewers that are merely closed (when no
open viewer's send throws, every open viewer receives the envelope),
and even when a send does throw the outer catch keeps the device
connection open — but delivery to viewers after the throwing one is
aborted, as the counterexample shows. -/
theorem c4_best_effort_amended (rpiId f : String) (msg resp : DeviceFrame)
    (viewers shut : List Viewer)
    (hty : msg.type = "camera_frame") (hf : msg.frame = some f) (hne : f ≠ "")
    (hdata : jsStartsWith f "data:" = true)
    (hresp : resp.type ≠ "camera_frame")
    (hnf : ∀ v ∈ viewers, v.readyState = WS_OPEN → v.failsSend = false) :
    handleRpiMessage rpiId msg shut
      = ⟨shut.map (deliverOpenOk (cameraEnvelope rpiId f)), false⟩ ∧
    handleRpiMessage rpiId resp viewers
      = ⟨viewers.map (deliverOpen (rpiResponseEnv rpiId resp.status resp.message)),
         false⟩ ∧
    (handleRpiMessage rpiId resp shut).deviceClosed = false := by
  refine ⟨?_, ?_, ?_⟩
  · unfold handleRpiMessage
    simp [hty, hf, truthy, hne, hdata, broadcastCaught_eq_map]
  · unfold handleRpiMessage
    simp [hresp,
      broadcastPlain_no_fail (rpiResponseEnv rpiId resp.status resp.message) viewers hnf]
  · unfold handleRpiMessage
    simp [hresp]

/-- C4 witness: the amended best-effort property evaluated with one
throwing-open viewer followed by one healthy open viewer (camera
fan-out) and with a healthy open viewer plus a closed one (response
fan-out). -/
theorem c4_best_effort_amended_witness :
    handleRpiMessage "d" { type := "camera_frame", frame := some "data:x" }
        [{ readyState := 1, failsSend := true, inbox := [] },
         { readyState := 1, failsSend := false, inbox := [] }]
      = ⟨[{ readyState := 1, failsSend := true, inbox := [] },
          { readyState := 1, failsSend := false, inbox := [] }].map
            (deliverOpenOk (cameraEnvelope "d" "data:x")), false⟩ ∧
    handleRpiMessage "d" { type := "status", status := some "ok", message := some "hi" }
        [{ readyState := 1, failsSend := false, inbox := [] },
         { readyState := 3, failsSend := false, inbox := [] }]
      = ⟨[{ readyState := 1, failsSend := false, inbox := [] },
          { readyState := 3, failsSend := false, inbox := [] }].map
            (deliverOpen (rpiResponseEnv "d" (some "ok") (some "hi"))), false⟩ ∧
    (handleRpiMessage "d" { type := "status", status := some "ok", message := some "hi" }
        [{ readyState := 1, failsSend := true, inbox := [] },
         { readyState := 1, failsSend := false, inbox := [] }]).deviceClosed = false :=
  c4_best_effort_amended "d" "data:x"
    { type := "camera_frame", frame := some "data:x" }
    { type := "status", status := some "ok", message := some "hi" }
    [{ readyState := 1, failsSend := false, inbox := [] },
     { readyState := 3, failsSend := false, inbox := [] }]
    [{ readyState := 1, failsSend := true, inbox := [] },
     { readyState := 1, failsSend := false, inbox := [] }]
    rfl rfl (by decide) (by decide) (by decide) (by decide)

/-! Claim C5. -/

/-- C5: a viewer command frame carrying a non-empty target identifier X
that is absent from the registry, or whose stored connection is not
OPEN, yields exactly one error envelope back to the sender whose
message names X, zero routed sends to any device, and an unchanged
state (registry and uiConnections). -/
theorem c5_unreachable_target (st : UIState) (self : Nat) (msg : ViewerFrame)
    (now X : String)
    (hty : msg.type ≠ "register") (hid : msg.rpiId = some X) (hX : X ≠ "")
    (habs : mapGet st.registry X = none ∨
            ∃ dc, mapGet st.registry X = some dc ∧ dc.readyState ≠ WS_OPEN) :
    (handleUIMessage st self msg now).toViewer.map Envelope.type = ["error"] ∧
    (handleUIMessage st self msg now).toViewer.map Envelope.message
      = [some ("RPi " ++ X ++ " not connected")] ∧
    (handleUIMessage st self msg now).toDevice = [] ∧
    (handleUIMessage st self msg now).state = st := by
  rcases habs with hnone | ⟨dc, hdc, hrs⟩
  · unfold handleUIMessage
    simp [hty, hid, truthy, hX, hnone]
  · unfold handleUIMessage
    simp [hty, hid, truthy, hX, hdc, hrs]

/-- C5 witness: a "move" frame targeting "X" against an empty registry
produces exactly the error reply naming "X" and nothing else. -/
theorem c5_unreachable_target_witness :
    (handleUIMessage { registry := [], uiConns := [] } 0
        { type := "move", rpiId := some "X" } "T").toViewer.map Envelope.type
      = ["error"] ∧
    (handleUIMessage { registry := [], uiConns := [] } 0
        { type := "move", rpiId := some "X" } "T").toViewer.map Envelope.message
      = [some ("RPi " ++ "X" ++ " not connected")] ∧
    (handleUIMessage { registry := [], uiConns := [] } 0
        { type := "move", rpiId := some "X" } "T").toDevice = [] ∧
    (handleUIMessage { registry := [], uiConns := [] } 0
        { type := "move", rpiId := some "X" } "T").state
      = { registry := [], uiConns := [] } :=
  c5_unreachable_target { registry := [], uiConns := [] } 0
    { type := "move", rpiId := some "X" } "T" "X"
    (by decide) rfl (by decide) (Or.inl rfl)

/-! Claim C6. -/

/-- C6: the upgrade router fails a device-prefixed path whose id
segment is empty with status 400 (transport destroyed, no connection
object created), completes a device handshake keyed by a non-empty id
segment, completes the viewer handshake on the fixed "/appws" path, and
fails every other path with status 404. -/
theorem c6_upgrade_router (p seg : String) :
    (jsStartsWith p "/rpi/" = true → (jsSplit p '/').getD 2 "" = "" →
        routeUpgrade p = .reject 400) ∧
    (jsStartsWith p "/rpi/" = true → (jsSplit p '/').getD 2 "" = seg → seg ≠ "" →
        routeUpgrade p = .device seg) ∧
    (p = "/appws" → routeUpgrade p = .viewer) ∧
    (jsStartsWith p "/rpi/" = false → p ≠ "/appws" → routeUpgrade p = .reject 404) := by
  refine ⟨?_, ?_, ?_, ?_⟩
  · intro hs hseg
    simp only [List.getD_eq_getElem?_getD] at hseg
    simp [routeUpgrade, hs, hseg]
  · intro hs hseg hne
    simp only [List.getD_eq_getElem?_getD] at hseg
    simp [routeUpgrade, hs, hseg, hne]
  · intro hp
    subst hp
    decide
  · intro hs hne
    unfold routeUpgrade
    simp [hs, hne]

/-- C6 witness: the four routing outcomes at the concrete paths
"/rpi/" (empty id), "/rpi/abc", "/appws" and "/ws". -/
theorem c6_upgrade_router_witness :
    routeUpgrade "/rpi/" = .reject 400 ∧
    routeUpgrade "/rpi/abc" = .device "abc" ∧
    routeUpgrade "/appws" = .viewer ∧
    routeUpgrade "/ws" = .reject 404 :=
  ⟨(c6_upgrade_router "/rpi/" "").1 (by decide) (by decide),
   (c6_upgrade_router "/rpi/abc" "abc").2.1 (by decide) (by decide) (by decide),
   (c6_upgrade_router "/appws" "").2.2.1 rfl,
   (c6_upgrade_router "/ws" "").2.2.2 (by decide) (by decide)⟩

/-! Claim C7. -/

/-- C7: from any state whose registry has pairwise-distinct keys, both
register and close keep the keys pairwise distinct (at most one entry
per identifier in every reachable registry); registering `d` twice
leaves exactly one entry for `d`, holding the second connection, and
each of the two registrations broadcasts its own rpi_connected envelope
to every open viewer. -/
theorem c7_registry_single_entry (st : RelayState) (d : String) (c1 c2 : DConn)
    (h : NodupKeys st.registry)
    (hnf : ∀ v ∈ st.viewers, v.readyState = WS_OPEN → v.failsSend = false) :
    (∀ id c, NodupKeys (onRpiConnect st id c).registry) ∧
    (∀ id, NodupKeys (onRpiClose st id).registry) ∧
    mapGet (onRpiConnect (onRpiConnect st d c1) d c2).registry d = some c2 ∧
    countKey (onRpiConnect (onRpiConnect st d c1) d c2).registry d = 1 ∧
    (onRpiConnect st d c1).viewers
      = st.viewers.map (deliverOpen (rpiConnectedEnv d)) ∧
    (onRpiConnect (onRpiConnect st d c1) d c2).viewers
      = (onRpiConnect st d c1).viewers.map (deliverOpen (rpiConnectedEnv d)) := by
  have hreg1 : NodupKeys (mapSet st.registry d c1) := nodupKeys_mapSet _ _ _ h
  have hreg2 : NodupKeys (mapSet (mapSet st.registry d c1) d c2) :=
    nodupKeys_mapSet _ _ _ hreg1
  have hnf1 : ∀ v ∈ st.viewers.map (deliverOpen (rpiConnectedEnv d)),
      v.readyState = WS_OPEN → v.failsSend = false :=
    no_fail_map_deliverOpen _ _ hnf
  have hx : (onRpiConnect st d c1).viewers
      = st.viewers.map (deliverOpen (rpiConnectedEnv d)) := by
    simp [onRpiConnect, broadcastPlain_no_fail (rpiConnectedEnv d) st.viewers hnf]
  refine ⟨fun id c => nodupKeys_mapSet _ _ _ h,
          fun id => nodupKeys_mapDelete _ _ h, ?_, ?_, hx, ?_⟩
  · simpa [onRpiConnect] using mapGet_mapSet_self (mapSet st.registry d c1) d c2
  · have hmem : d ∈ (mapSet (mapSet st.registry d c1) d c2).map Prod.fst :=
      (mem_keys_mapSet _ _ _ _).mpr (Or.inr rfl)
    simpa [onRpiConnect, countKey] using List.count_eq_one_of_mem hreg2 hmem
  · calc (onRpiConnect (onRpiConnect st d c1) d c2).viewers
        = (broadcastPlain (rpiConnectedEnv d) (onRpiConnect st d c1).viewers).1 := rfl
      _ = (onRpiConnect st d c1).viewers.map (deliverOpen (rpiConnectedEnv d)) := by
          rw [hx, broadcastPlain_no_fail (rpiConnectedEnv d) _ hnf1]

/-- C7 witness: the double-registration scenario evaluated from a
one-device registry with one open viewer. -/
theorem c7_registry_single_entry_witness :
    mapGet (onRpiConnect (onRpiConnect
        { registry := [("e", { handle := 5, readyState := 1 })],
          viewers := [{ readyState := 1, failsSend := false, inbox := [] }] }
        "d" { handle := 1, readyState := 1 }) "d"
        { handle := 2, readyState := 1 }).registry "d"
      = some { handle := 2, readyState := 1 } ∧
    countKey (onRpiConnect (onRpiConnect
        { registry := [("e", { handle := 5, readyState := 1 })],
          viewers := [{ readyState := 1, failsSend := false, inbox := [] }] }
        "d" { handle := 1, readyState := 1 }) "d"
        { handle := 2, readyState := 1 }).registry "d" = 1 ∧
    (onRpiConnect
        { registry := [("e", { handle := 5, readyState := 1 })],
          viewers := [{ readyState := 1, failsSend := false, inbox := [] }] }
        "d" { handle := 1, readyState := 1 }).viewers
      = [({ readyState := 1, failsSend := false, inbox := [] } : Viewer)].map
          (deliverOpen (rpiConnectedEnv "d")) ∧
    (onRpiConnect (onRpiConnect
        { registry := [("e", { handle := 5, readyState := 1 })],
          viewers := [{ readyState := 1, failsSend := false, inbox := [] }] }
        "d" { handle := 1, readyState := 1 }) "d"
        { handle := 2, readyState := 1 }).viewers
      = (onRpiConnect
          { registry := [("e", { handle := 5, readyState := 1 })],
            viewers := [{ readyState := 1, failsSend := false, inbox := [] }] }
          "d" { handle := 1, readyState := 1 }).viewers.map
            (deliverOpen (rpiConnectedEnv "d")) := by
  have h := c7_registry_single_entry
    { registry := [("e", { handle := 5, readyState := 1 })],
      viewers := [{ readyState := 1, failsSend := false, inbox := [] }] }
    "d" { handle := 1, readyState := 1 } { handle := 2, readyState := 1 }
    (by decide) (by decide)
  exact ⟨h.2.2.1, h.2.2.2.1, h.2.2.2.2.1, h.2.2.2.2.2⟩

/-! Claim C8. -/

/-- C8 counterexample: the routes.ts UI connection handler sends
nothing on connect — with "rpi1" the only registered device, a newly
connecting viewer receives the empty list of envelopes, not one
device-list snapshot. -/
theorem c8_routes_no_snapshot_counterexample :
    uiConnectSnapshotRoutes [("rpi1", { handle := 1, readyState := 1 })] = [] ∧
    (uiConnectSnapshotRoutes [("rpi1", { handle := 1, readyState := 1 })]).length ≠ 1 :=
  ⟨rfl, by decide⟩

/-- C8 (amended): only the part_001 variant sends the on-connect
snapshot: there a new viewer receives exactly one rpi_list envelope
whose ids are exactly the registry's current keys (so ["rpi1"] when
rpi1 is the only device), while the routes.ts handler sends nothing on
connect; in both variants, when a device disconnects, every open viewer
(none of whose sends throw) receives an rpi_disconnected envelope
carrying the device id. -/
theorem c8_snapshot_amended (registry : List (String × DConn)) (st : RelayState)
    (d : String)
    (hnf : ∀ v ∈ st.viewers, v.readyState = WS_OPEN → v.failsSend = false) :
    uiConnectSnapshotVariant registry
      = [{ type := "rpi_list", rpiIds := some (registry.map Prod.fst) }] ∧
    uiConnectSnapshotRoutes registry = [] ∧
    (onRpiClose st d).viewers
      = st.viewers.map (deliverOpen (rpiDisconnectedEnv d)) := by
  refine ⟨rfl, rfl, ?_⟩
  simp [onRpiClose, broadcastPlain_no_fail (rpiDisconnectedEnv d) st.viewers hnf]

/-- C8 witness: the snapshot and disconnect behaviour at a registry
holding exactly "rpi1" and one open viewer. -/
theorem c8_snapshot_amended_witness :
    uiConnectSnapshotVariant [("rpi1", { handle := 1, readyState := 1 })]
      = [{ type := "rpi_list",
           rpiIds := some ([("rpi1",
             ({ handle := 1, readyState := 1 } : DConn))].map Prod.fst) }] ∧
    uiConnectSnapshotRoutes [("rpi1", { handle := 1, readyState := 1 })] = [] ∧
    (onRpiClose { registry := [("rpi1", { handle := 1, readyState := 1 })],
                  viewers := [{ readyState := 1, failsSend := false, inbox := [] }] }
        "rpi1").viewers
      = [({ readyState := 1, failsSend := false, inbox := [] } : Viewer)].map
          (deliverOpen (rpiDisconnectedEnv "rpi1")) :=
  c8_snapshot_amended [("rpi1", { handle := 1, readyState := 1 })]
    { registry := [("rpi1", { handle := 1, readyState := 1 })],
      viewers := [{ readyState := 1, failsSend := false, inbox := [] }] }
    "rpi1" (by decide)

/-! Claim C9. -/

/-- C9: a non-register viewer frame with no target device identifier
gets exactly one error reply "RPi ID is required" and nothing else
happens: no routed send, and the registry and uiConnections are
unchanged. -/
theorem c9_missing_device_id (st : UIState) (self : Nat) (msg : ViewerFrame)
    (now : String)
    (hty : msg.type ≠ "register") (hid : msg.rpiId = none) :
    handleUIMessage st self msg now
      = { state := st,
          toViewer := [{ type := "error", message := some "RPi ID is required" }],
          toDevice := [] } := by
  unfold handleUIMessage
  simp [hty, hid, truthy]

/-- C9 witness: a "move" frame with no rpiId evaluated against the
empty state. -/
theorem c9_missing_device_id_witness :
    handleUIMessage { registry := [], uiConns := [] } 0 { type := "move" } "T"
      = { state := { registry := [], uiConns := [] },
          toViewer := [{ type := "error", message := some "RPi ID is required" }],
          toDevice := [] } :=
  c9_missing_device_id { registry := [], uiConns := [] } 0 { type := "move" } "T"
    (by decide) rfl

/-! Claim C10. -/

/-- C10: a register frame in which the subscription key or the device
identifier is absent stores no uiConnections entry and sends no reply
at all — the handler returns with the state unchanged and empty outputs
— and a "registered" confirmation is only ever sent when both fields
are present (truthy). -/
theorem c10_register_requires_both (st : UIState) (self : Nat) (msg : ViewerFrame)
    (now : String) (hty : msg.type = "register") :
    ((msg.stationId = none ∨ msg.rpiId = none) →
        handleUIMessage st self msg now
          = { state := st, toViewer := [], toDevice := [] }) ∧
    (∀ e ∈ (handleUIMessage st self msg now).toViewer, e.type = "registered" →
        truthy msg.stationId = true ∧ truthy msg.rpiId = true) := by
  constructor
  · rintro (hnone | hnone)
    · unfold handleUIMessage
      simp [hty, hnone, truthy]
    · unfold handleUIMessage
      simp [hty, hnone, truthy]
  · intro e he _hreg
    by_cases hb : (truthy msg.stationId && truthy msg.rpiId) = true
    · exact Bool.and_eq_true_iff.mp hb
    · exfalso
      unfold handleUIMessage at he
      simp [hty, hb] at he

/-- C10 witness: a register frame carrying a stationId but no rpiId is
answered with nothing and changes nothing. -/
theorem c10_register_requires_both_witness :
    handleUIMessage { registry := [], uiConns := [] } 0
        { type := "register", stationId := some "1" } "T"
      = { state := { registry := [], uiConns := [] }, toViewer := [], toDevice := [] } :=
  (c10_register_requires_both { registry := [], uiConns := [] } 0
      { type := "register", stationId := some "1" } "T" rfl).1 (Or.inr rfl)

end XeryonRelay
